import Mathlib

/-!
Shallow embedding of the Soulene conversation-safety pipeline
(`src/soulene_server.py`) and proofs about its claims.

Modelling conventions:
* Python dicts keyed by strings become insertion-ordered association lists.
* Every external model call (Gemini classifier calls, the persona drafter,
  the LangChain refiner, the emergency-number lookup) is a black-box
  capability.  Its observable outcome is passed in as an explicit oracle
  value: `Option Json` for the calls whose output is parsed as JSON
  (`none` models a raised exception, a timeout, or output on which
  `clean_json_response` + `json.loads` fails), `Option String` for the
  text-producing calls (`none` models a raised exception).
* `datetime.now()` is passed in as an explicit `now : String` argument.
* Machine strings are Lean `String`s; `str.lower` is modelled by
  `Char.toLower` on each character (exact on the ASCII data the program
  manipulates).
-/

/-! ### Python dictionary primitives -/

/-- Lookup in an insertion-ordered association list (Python `d.get(k)` /
`d[k]` for present keys). -/
def dictLookup {α : Type} (m : List (String × α)) (k : String) : Option α :=
  match m with
  | [] => none
  | (k₂, v) :: rest => if k₂ = k then some v else dictLookup rest k

/-- `d[k] = v`: replace the value of an existing key in place, else append
(Python dicts keep insertion order). -/
def dictSet {α : Type} (m : List (String × α)) (k : String) (v : α) :
    List (String × α) :=
  match m with
  | [] => [(k, v)]
  | (k₂, w) :: rest => if k₂ = k then (k₂, v) :: rest else (k₂, w) :: dictSet rest k v

/-- `d.pop(k, None)`: drop the key if present. -/
def dictPop {α : Type} (m : List (String × α)) (k : String) : List (String × α) :=
  m.filter (fun p => !(p.1 = k : Bool))

/-! ### Python string/list primitives -/

/-- Python `xs[-n:]` for a nonnegative `n` (note `xs[-0:]` is the whole
list, which is the source of two boundary behaviours proved below). -/
def pyTakeLast {α : Type} (n : Nat) (xs : List α) : List α :=
  if n = 0 then xs else xs.drop (xs.length - n)

/-- Python `s.lower()` (ASCII-exact model). -/
def pyLower (s : String) : String := String.mk (s.toList.map Char.toLower)

/-- Substring occurrence on lists: `hasSubstr t s` is true iff `t` occurs
contiguously inside `s` (the list form of Python `t in s`). -/
def hasSubstr {α : Type} [DecidableEq α] (t : List α) : List α → Bool
  | [] => t.isEmpty
  | c :: cs => t.isPrefixOf (c :: cs) || hasSubstr t cs

/-- Python `needle in haystack` for strings. -/
def pyContains (needle haystack : String) : Bool :=
  hasSubstr needle.toList haystack.toList

/-- Python `s.strip(chars)`. -/
def pyStripChars (chars s : String) : String :=
  String.mk
    (((s.toList.dropWhile (chars.toList.contains ·)).reverse.dropWhile
      (chars.toList.contains ·)).reverse)

/-- Python `s.rstrip()`. -/
def pyRstripWs (s : String) : String :=
  String.mk (s.toList.reverse.dropWhile Char.isWhitespace).reverse

/-- Python `s.strip()` with no argument: whitespace stripped from both
ends. -/
def pyStripWs (s : String) : String :=
  String.mk ((s.toList.dropWhile Char.isWhitespace).reverse.dropWhile
    Char.isWhitespace).reverse

/-- Split a character list at every position satisfying `p`, keeping empty
pieces (the list form of Python `s.split(sep)` for a one-character
separator). -/
def splitOnPred {α : Type} (p : α → Bool) : List α → List (List α)
  | [] => [[]]
  | c :: cs =>
    if p c then [] :: splitOnPred p cs
    else
      match splitOnPred p cs with
      | [] => [[c]]
      | l :: ls => (c :: l) :: ls

/-- Python `s.split(sep)` for a one-character separator predicate. -/
def pySplitChar (p : Char → Bool) (s : String) : List String :=
  (splitOnPred p s.toList).map String.mk

/-- Python `s.split()` with no argument: split on whitespace runs, no empty
pieces. -/
def pySplitWs (s : String) : List String :=
  (pySplitChar Char.isWhitespace s).filter (fun w => w ≠ "")

/-- Python `s[:n]` for nonnegative `n`. -/
def pyTake (n : Nat) (s : String) : String := String.mk (s.toList.take n)

/-- Python `s.split('\n')[0]`. -/
def firstLine (s : String) : String :=
  (pySplitChar (fun c => c = '\n') s).headD ""

/-- Python `sep.join(parts)`. -/
def pyJoin (sep : String) : List String → String
  | [] => ""
  | [x] => x
  | x :: xs => x ++ sep ++ pyJoin sep xs

/-- Python `s.startswith(t)`. -/
def pyStartsWith (t s : String) : Bool := t.toList.isPrefixOf s.toList

/-- Python `s.endswith(t)`. -/
def pyEndsWith (t s : String) : Bool := t.toList.isSuffixOf s.toList

/-- The worker of `replaceAll`, structurally recursive on an explicit fuel
(the input's length bounds the number of steps, since each step consumes
at least one element when `t` is nonempty). -/
def replaceAllAux {α : Type} [DecidableEq α] (t r : List α) : Nat → List α → List α
  | _, [] => []
  | 0, s => s
  | fuel + 1, c :: cs =>
    if t ≠ [] ∧ t.isPrefixOf (c :: cs) then
      r ++ replaceAllAux t r fuel ((c :: cs).drop t.length)
    else
      c :: replaceAllAux t r fuel cs

/-- Python `s.replace(t, r)` on lists: leftmost, non-overlapping
replacement of every occurrence.  Every call site passes a nonempty `t`
(the `[EMERGENCY_NUMBER]` token). -/
def replaceAll {α : Type} [DecidableEq α] (t r s : List α) : List α :=
  replaceAllAux t r s.length s

/-- The fuel is irrelevant as long as it bounds the input's length. -/
theorem replaceAllAux_congr {α : Type} [DecidableEq α] (t r : List α) :
    ∀ (n fuel fuel' : Nat) (s : List α), s.length ≤ n → s.length ≤ fuel →
      s.length ≤ fuel' → replaceAllAux t r fuel s = replaceAllAux t r fuel' s := by
  intro n
  induction n with
  | zero =>
    intro fuel fuel' s h0 _ _
    have hs : s = [] := List.eq_nil_of_length_eq_zero (by omega)
    subst hs
    cases fuel <;> cases fuel' <;> rfl
  | succ n ih =>
    intro fuel fuel' s hn h1 h2
    match s, fuel, fuel' with
    | [], fuel, fuel' => cases fuel <;> cases fuel' <;> rfl
    | c :: cs, 0, _ => simp at h1
    | c :: cs, _ + 1, 0 => simp at h2
    | c :: cs, fuel0 + 1, fuel1 + 1 =>
      simp only [replaceAllAux]
      by_cases hcond : (t ≠ [] ∧ t.isPrefixOf (c :: cs))
      · rw [if_pos hcond, if_pos hcond]
        have ht : 1 ≤ t.length := by
          have := hcond.1
          cases t
          · simp at this
          · simp
        have hd : ((c :: cs).drop t.length).length ≤ cs.length := by
          simp only [List.length_drop, List.length_cons]
          omega
        simp only [List.length_cons] at hn h1 h2
        rw [ih fuel0 fuel1 ((c :: cs).drop t.length) (by omega) (by omega) (by omega)]
      · rw [if_neg hcond, if_neg hcond]
        simp only [List.length_cons] at hn h1 h2
        rw [ih fuel0 fuel1 cs (by omega) (by omega) (by omega)]

theorem replaceAll_nil {α : Type} [DecidableEq α] (t r : List α) :
    replaceAll t r [] = [] := rfl

/-- The defining recursion of `replaceAll` (Python `str.replace`
semantics). -/
theorem replaceAll_cons {α : Type} [DecidableEq α] (t r : List α) (c : α) (cs : List α) :
    replaceAll t r (c :: cs) =
      if t ≠ [] ∧ t.isPrefixOf (c :: cs) then
        r ++ replaceAll t r ((c :: cs).drop t.length)
      else
        c :: replaceAll t r cs := by
  show replaceAllAux t r (cs.length + 1) (c :: cs) = _
  simp only [replaceAllAux]
  by_cases hcond : (t ≠ [] ∧ t.isPrefixOf (c :: cs))
  · rw [if_pos hcond, if_pos hcond]
    have ht : 1 ≤ t.length := by
      have := hcond.1
      cases t
      · simp at this
      · simp
    rw [replaceAllAux_congr t r ((c :: cs).drop t.length).length cs.length
      ((c :: cs).drop t.length).length ((c :: cs).drop t.length) (le_refl _)
      (by simp only [List.length_drop, List.length_cons]; omega) (le_refl _)]
    rfl
  · rw [if_neg hcond, if_neg hcond]
    rfl

/-- Python `s.replace(t, r)` for strings. -/
def pyReplace (s t r : String) : String :=
  String.mk (replaceAll t.toList r.toList s.toList)

/-- Python `s.split(t, 1)[1]`: the remainder after the first occurrence of
`t`, or `none` when `t` does not occur (indexing `[1]` then raises).
`t` is nonempty at the call site. -/
def afterFirst {α : Type} [DecidableEq α] (t : List α) : List α → Option (List α)
  | [] => none
  | c :: cs =>
    if t.isPrefixOf (c :: cs) then some ((c :: cs).drop t.length)
    else afterFirst t cs

/-- Truthiness of an optional Python string (`None` and `""` are falsy). -/
def optStrTruthy : Option String → Bool
  | none => false
  | some s => decide (s ≠ "")

/-! ### JSON values (the parsed output of the structured model calls) -/

inductive Json where
  | null : Json
  | bool : Bool → Json
  | num : Int → Json
  | str : String → Json
  | arr : List Json → Json
  | obj : List (String × Json) → Json

/-- Python truthiness of a JSON-decoded value. -/
def Json.truthy : Json → Bool
  | .null => false
  | .bool b => b
  | .num n => decide (n ≠ 0)
  | .str s => decide (s ≠ "")
  | .arr xs => !xs.isEmpty
  | .obj fs => !fs.isEmpty

/-- Python `d.get(k, default)` on a decoded JSON object's fields. -/
def jsonGet (fs : List (String × Json)) (k : String) (d : Json) : Json :=
  (dictLookup fs k).getD d

mutual
/-- Python `repr` of a JSON-decoded value (as f-string interpolation uses
for values nested inside containers). -/
def pyRepr : Json → String
  | .null => "None"
  | .bool true => "True"
  | .bool false => "False"
  | .num n => toString n
  | .str s => "'" ++ s ++ "'"
  | .arr xs => "[" ++ pyReprList xs ++ "]"
  | .obj fs => "\x7b" ++ pyReprObj fs ++ "\x7d"

def pyReprList : List Json → String
  | [] => ""
  | [j] => pyRepr j
  | j :: js => pyRepr j ++ ", " ++ pyReprList js

def pyReprObj : List (String × Json) → String
  | [] => ""
  | [(k, v)] => "'" ++ k ++ "': " ++ pyRepr v
  | (k, v) :: fs => "'" ++ k ++ "': " ++ pyRepr v ++ ", " ++ pyReprObj fs
end

/-- Python `str(x)` / f-string interpolation of a JSON-decoded value. -/
def pyStr : Json → String
  | .null => "None"
  | .bool true => "True"
  | .bool false => "False"
  | .num n => toString n
  | .str s => s
  | .arr xs => "[" ++ pyReprList xs ++ "]"
  | .obj fs => "\x7b" ++ pyReprObj fs ++ "\x7d"

/-! ### ConversationHistory (`soulene_server.py` lines 214-285) -/

structure Turn where
  role : String
  content : String
  timestamp : String
deriving DecidableEq

structure ConversationHistory where
  max_length : Nat
  histories : List (String × List Turn)
  loop_tracker : List (String × List String)
deriving DecidableEq

namespace ConversationHistory

/-- `ConversationHistory.add_message` (lines 222-235): append a turn, then
trim with `histories[sid][-max_length:]` when the list exceeds
`max_length`. -/
def add_message (self : ConversationHistory) (session_id role content now : String) :
    ConversationHistory :=
  let h := (dictLookup self.histories session_id).getD []
  let h := h ++ [⟨role, content, now⟩]
  let h := if h.length > self.max_length then pyTakeLast self.max_length h else h
  { self with histories := dictSet self.histories session_id h }

/-- `ConversationHistory.get_history` (lines 237-239). -/
def get_history (self : ConversationHistory) (session_id : String) : List Turn :=
  (dictLookup self.histories session_id).getD []

/-- The formatting loop of `get_recent_context` (lines 246-249): one
labelled line per turn, oldest first. -/
def renderContext (recent : List Turn) : String :=
  recent.foldl
    (fun context msg =>
      context ++ (if msg.role = "user" then "User" else "Soulene") ++ ": " ++
        msg.content ++ "\n")
    ""

/-- `ConversationHistory.get_recent_context` (lines 241-250):
`history[-limit:] if len(history) > limit else history`, then the
formatting loop. -/
def get_recent_context (self : ConversationHistory) (session_id : String)
    (limit : Nat) : String :=
  let history := self.get_history session_id
  let recent := if history.length > limit then pyTakeLast limit history else history
  renderContext recent

/-- The fixed grounding keyword list of `detect_loop` (line 261). -/
def grounding_keywords : List String :=
  ["breathe", "breath", "ground", "present", "room", "sit", "feet"]

/-- `any(keyword in resp.lower() for keyword in grounding_keywords)`. -/
def has_grounding (resp : String) : Bool :=
  grounding_keywords.any (fun k => pyContains k (pyLower resp))

/-- `ConversationHistory.detect_loop` (lines 252-280).  Returns the boolean
result together with the mutated tracker state. -/
def detect_loop (self : ConversationHistory) (session_id new_response : String) :
    Bool × ConversationHistory :=
  let self :=
    if (dictLookup self.loop_tracker session_id).isNone then
      { self with loop_tracker := dictSet self.loop_tracker session_id [] }
    else self
  let tracker := (dictLookup self.loop_tracker session_id).getD []
  let recent_responses := pyTakeLast 3 tracker
  let new_has_grounding := has_grounding new_response
  if new_has_grounding ∧ 2 ≤ recent_responses.countP has_grounding then
    (true, self)
  else
    let tracker := tracker ++ [new_response]
    let tracker := if tracker.length > 5 then pyTakeLast 5 tracker else tracker
    (false, { self with loop_tracker := dictSet self.loop_tracker session_id tracker })

/-- `ConversationHistory.clear_session` (lines 282-285). -/
def clear_session (self : ConversationHistory) (session_id : String) :
    ConversationHistory :=
  { self with
    histories := dictPop self.histories session_id,
    loop_tracker := dictPop self.loop_tracker session_id }

end ConversationHistory

/-! ### Utility `detect_user_location` (`soulene_server.py` lines 318-330) -/

/-- The inner word scan of `detect_user_location`: find the first standalone
`in`/`from` (case-insensitive) that has a following word, and return that
word stripped of `.,!?`. -/
def findAfterInFrom : List String → Option String
  | w :: next :: rest =>
    if pyLower w = "in" ∨ pyLower w = "from" then some (pyStripChars ".,!?" next)
    else findAfterInFrom (next :: rest)
  | _ => none

/-- The lexical cues gating the word scan (line 324). -/
def location_cues : List String := ["i live in", "i am in", "from"]

/-- `detect_user_location` (lines 318-330): scan user turns in original
order; on the first turn containing a cue, run the word scan, returning its
hit; a cue-bearing turn whose scan finds nothing falls through to later
turns. -/
def detect_user_location : List Turn → Option String
  | [] => none
  | msg :: rest =>
    if msg.role = "user" then
      if location_cues.any (fun w => pyContains w (pyLower msg.content)) then
        match findAfterInFrom (pySplitWs msg.content) with
        | some loc => some loc
        | none => detect_user_location rest
      else detect_user_location rest
    else detect_user_location rest

/-! ### PreCheckCounter (`soulene_server.py` lines 334-383) -/

/-- The structured result of the pre-screen (the dict built at lines
365-372 / 376-383).  Field values are raw JSON-decoded values, exactly as
`result.get(...)` leaves them. -/
structure RiskAssessment where
  risk_level : Json
  risk_type : Json
  requires_intervention : Json
  intervention_type : Json
  context_notes : Json
  block_response : Json

/-- The all-safe default returned from the `except` arm (lines 376-383). -/
def safeDefaultAssessment : RiskAssessment :=
  ⟨.str "none", .str "none", .bool false, .str "none", .str "", .bool false⟩

namespace PreCheckCounter

/-- `PreCheckCounter.analyze` (lines 343-383).  `outcome` is the oracle for
the classifier call composed with `clean_json_response` and `json.loads`:
`none` models any raised error (call failure, timeout, unparseable
output); a decoded non-dict raises `ValueError` inside the `try`, and both
paths land in the all-safe `except` arm. -/
def analyze (outcome : Option Json) : RiskAssessment :=
  match outcome with
  | some (.obj fs) =>
    ⟨jsonGet fs "risk_level" (.str "none"),
     jsonGet fs "risk_type" (.str "none"),
     jsonGet fs "requires_intervention" (.bool false),
     jsonGet fs "intervention_type" (.str "none"),
     jsonGet fs "context_notes" (.str ""),
     jsonGet fs "block_response" (.bool false)⟩
  | _ => safeDefaultAssessment

end PreCheckCounter

/-! ### EmergencyDetector (`soulene_server.py` lines 385-416) -/

/-- `confidence in ['high', 'medium']` on a raw JSON value (Python equality
of a decoded value with a string). -/
def isHighOrMedium : Json → Bool
  | .str s => s = "high" || s = "medium"
  | _ => false

namespace EmergencyDetector

/-- `EmergencyDetector.detect` (lines 394-416): returns
`(is_emergency, emergency_type, confidence)`.  `outcome` is the oracle for
the classifier call + parse (`none` = raised/unparseable; a decoded
non-dict raises on `.get` and lands in the same `except` arm).  Only a
truthy `is_emergency` with confidence `high`/`medium` is returned as an
emergency; otherwise the non-emergency `(False, 'none', confidence)` is
returned. -/
def detect (outcome : Option Json) : Bool × Json × Json :=
  match outcome with
  | some (.obj fs) =>
    let is_emergency := jsonGet fs "is_emergency" (.bool false)
    let emergency_type := jsonGet fs "emergency_type" (.str "none")
    let confidence := jsonGet fs "confidence" (.str "low")
    if is_emergency.truthy && isHighOrMedium confidence then
      (true, emergency_type, confidence)
    else
      (false, .str "none", confidence)
  | _ => (false, .str "none", .str "low")

end EmergencyDetector

/-! ### SouleneAI (`soulene_server.py` lines 418-474) -/

namespace SouleneAI

/-- Explicit-danger phrase list (lines 456-459). -/
def danger_indicators : List String :=
  ["going to kill myself", "kill myself", "i will kill", "i will end",
   "i am going to jump", "i am going to hurt myself", "have pills ready",
   "ready to end it"]

/-- Exhaustion / passive-ideation cues (line 464). -/
def exhaustion_indicators : List String :=
  ["exhaust", "tired", "can't do this", "done", "wouldn't mind",
   "wish i was gone"]

/-- `SouleneAI._rule_based_response` (lines 446-474): the deterministic
local fallback. -/
def _rule_based_response (message : String) : String :=
  let text := pyStripWs message
  let lower := pyLower text
  if danger_indicators.any (fun s => pyContains s lower) then
    "Urgentâ€”call [EMERGENCY_NUMBER] now. Are you still there?"
  else if exhaustion_indicators.any (fun s => pyContains s lower) then
    let fragment := pyRstripWs (pyTake 120 (firstLine text))
    let fragment := if fragment.length < 5 then "You're overwhelmed" else fragment
    fragment ++ "... That sounds brutal. You're reaching outâ€”that matters."
  else
    let fragment := pyRstripWs (pyTake 120 (firstLine text))
    let fragment := if fragment = "" then "That sounds hard" else fragment
    fragment ++ "... I'm here with you. Tell me a bit more?"

/-- `SouleneAI.generate_response` (lines 427-444): the remote persona model
(oracle `modelOutcome`; `history` feeds only its prompt) with the
rule-based fallback on any failure. -/
def generate_response (message : String) (history : List Turn)
    (modelOutcome : Option String) : String :=
  match modelOutcome with
  | some t => pyStripWs t
  | none => _rule_based_response message

end SouleneAI

/-! ### CounterAI (`soulene_server.py` lines 476-531) -/

namespace CounterAI

/-- The quotation-mark cleanup (lines 524-525): strip one surrounding pair
of double quotes (`s[1:-1]`). -/
def stripSurroundingQuotes (s : String) : String :=
  if pyStartsWith "\"" s ∧ pyEndsWith "\"" s then
    String.mk (s.toList.drop 1).dropLast
  else s

/-- `CounterAI.refine` (lines 491-531).  `modelOutcome` is the oracle for
the LangChain call (`none` = raised → the `except` arm returns the draft
unchanged).  The cleanup runs inside the `try`: a reply whose lowercasing
contains `refined reply:` but which lacks the exact lowercase label makes
`split(...)[1]` raise `IndexError`, also landing in the `except` arm. -/
def refine (conversation_context user_message draft_reply : String)
    (is_emergency : Bool) (pre_check_data : Option RiskAssessment)
    (modelOutcome : Option String) : String :=
  match modelOutcome with
  | none => draft_reply
  | some content =>
    let refined := pyStripWs content
    if pyContains "refined reply:" (pyLower refined) then
      match afterFirst "refined reply:".toList refined.toList with
      | some rest => stripSurroundingQuotes (pyStripWs (String.mk rest))
      | none => draft_reply
    else stripSurroundingQuotes refined

end CounterAI

/-! ### EmergencyNumberService (`soulene_server.py` lines 533-618) -/

namespace EmergencyNumberService

/-- The static fallback record cached from the `except` arm (lines
591-598). -/
def default_info (location : Option String) : List (String × Json) :=
  [("location", .str (if optStrTruthy location then location.getD "" else "India")),
   ("police", .str "100"),
   ("medical", .str "102 or 108"),
   ("suicide_hotline", .str "AASRA 9820466726"),
   ("verified", .bool false),
   ("source", .str "default")]

/-- `EmergencyNumberService.get_emergency_info` (lines 540-600).
`lookupOutcome` is the oracle for the lookup call + parse (`none` =
raised/unparseable; a decoded non-dict raises `ValueError`): failures
produce and cache the static fallback.  Cache key is the location or
`"default"` when the location is falsy. -/
def get_emergency_info (cache : List (String × List (String × Json)))
    (location : Option String) (lookupOutcome : Option Json) :
    List (String × Json) × List (String × List (String × Json)) :=
  let cache_key := if optStrTruthy location then location.getD "" else "default"
  match dictLookup cache cache_key with
  | some info => (info, cache)
  | none =>
    match lookupOutcome with
    | some (.obj fs) => (fs, dictSet cache cache_key fs)
    | _ => (default_info location, dictSet cache cache_key (default_info location))

/-- `EmergencyNumberService.format_emergency_numbers` (lines 602-618). -/
def format_emergency_numbers (info : List (String × Json)) : String :=
  let parts : List String := []
  let medical := (dictLookup info "medical").getD .null
  let parts := if medical.truthy then parts ++ [pyStr medical ++ " (ambulance)"] else parts
  let police := (dictLookup info "police").getD .null
  let parts := if police.truthy then parts ++ [pyStr police ++ " (police)"] else parts
  let suicide_hotline := (dictLookup info "suicide_hotline").getD (.str "")
  let hotlineKept := suicide_hotline.truthy &&
    (match suicide_hotline with
     | .str s => decide (s ≠ "not available")
     | _ => true)
  let parts := if hotlineKept then parts ++ [pyStr suicide_hotline ++ " (crisis line)"] else parts
  if parts.isEmpty then "112 (international emergency)"
  else pyJoin " or " parts

end EmergencyNumberService

/-! ### SouleneServer and the `POST /chat` pipeline
(`soulene_server.py` lines 622-823) -/

/-- The per-process server state mutated by the chat pipeline
(`__init__`, lines 630-639): the conversation history store, the
`user_locations` dict and the `EmergencyNumberService` cache. -/
structure ServerState where
  conversation_history : ConversationHistory
  user_locations : List (String × String)
  emergency_cache : List (String × List (String × Json))

/-- A fresh server (`ConversationHistory(max_length=50)`, empty dicts). -/
def initialServerState : ServerState :=
  ⟨⟨50, [], []⟩, [], []⟩

/-- Oracles for one request: the observable outcome of each external
capability call the pipeline may make, plus the request's clock value. -/
structure ChatOracles where
  preCheckOutcome : Option Json
  detectOutcome : Option Json
  lookupOutcome : Option Json
  generateOutcome : Option String
  refineOutcome : Option String
  now : String

/-- One external-stage invocation, recorded in order, with the arguments
the handler passes (used to state which stages ran and what the refiner
received). -/
inductive Event where
  | preCheckCall (user_message recent_context : String)
  | detectCall (message : String)
  | lookupCall (location : Option String)
  | generateCall (message : String)
  | refineCall (conversation_context user_message draft_reply : String)
      (is_emergency : Bool)
  | detectLoopCall (candidate : String)
deriving DecidableEq

/-- The JSON envelope of a `POST /chat` response (lines 714-715, 740-745,
810-816, 820-823). -/
inductive ChatResponse where
  | badRequest
  | blocked (reply : String) (is_emergency : Bool) (emergency_type : String)
      (pre_check_intervention : Bool)
  | ok (reply : String) (is_emergency : Bool) (emergency_type : Json)
      (pre_check_data : RiskAssessment) (loop_detected : Bool)
  | serverError

/-- The fixed crisis-referral reply of the pre-check block path (line
736). -/
def emergencyReplyText : String :=
  "I'm really worried about you right now. Can you reach out to someone who can help? Call emergency services or a crisis hotline."

/-- The fixed pattern-breaking reply substituted when a loop is detected
(line 800). -/
def loopBreakReplyText : String :=
  "Let's try something different. What's one thing you could do right now, just for the next five minutes?"

/-- The location/contact resolution performed inside `if is_emergency:`
(lines 752-766): read the cached location, else run
`detect_user_location` over the session history and cache a truthy hit;
then resolve and format the emergency numbers.  Returns the formatted
number string (`emergency_number`), the updated `user_locations`, the
updated lookup cache, and the location passed to the lookup. -/
def resolveEmergencyNumber (st : ServerState) (ch : ConversationHistory)
    (session_id : String) (lookupOutcome : Option Json) :
    String × List (String × String) × List (String × List (String × Json)) × Option String :=
  let cached := dictLookup st.user_locations session_id
  let (user_location, user_locations) :=
    if !optStrTruthy cached then
      let detected := detect_user_location (ch.get_history session_id)
      let locs :=
        if optStrTruthy detected then
          dictSet st.user_locations session_id (detected.getD "")
        else st.user_locations
      (detected, locs)
    else (cached, st.user_locations)
  let (emergency_info, cache) :=
    EmergencyNumberService.get_emergency_info st.emergency_cache user_location lookupOutcome
  (EmergencyNumberService.format_emergency_numbers emergency_info,
   user_locations, cache, user_location)

/-- The `POST /chat` handler (lines 697-816), minus the outer `except`
(modelled separately by `chatAborted`): body parsing is abstracted to the
already-extracted `message` and `session_id` fields.  Returns the
response, the mutated server state, and the ordered trace of external
stage invocations. -/
def chat (st : ServerState) (message session_id : String) (o : ChatOracles) :
    ChatResponse × ServerState × List Event :=
  let user_message := pyStripWs message
  if user_message = "" then (.badRequest, st, [])
  else
    -- line 720: the user turn is committed before any pipeline stage
    let ch := st.conversation_history.add_message session_id "user" user_message o.now
    let recent_context := ch.get_recent_context session_id 10
    -- STEP 1: pre-check counter
    let pre_check_data := PreCheckCounter.analyze o.preCheckOutcome
    let trace := [Event.preCheckCall user_message recent_context]
    if pre_check_data.block_response.truthy then
      let ch := ch.add_message session_id "assistant" emergencyReplyText o.now
      (.blocked emergencyReplyText true "critical" true,
       { st with conversation_history := ch }, trace)
    else
      -- STEP 2: emergency detection
      let (is_emergency, emergency_type, _confidence) :=
        EmergencyDetector.detect o.detectOutcome
      let trace := trace ++ [Event.detectCall user_message]
      let (emergency_number, user_locations, cache, trace) :=
        if is_emergency then
          let (number, locs, cache, loc) :=
            resolveEmergencyNumber st ch session_id o.lookupOutcome
          (some number, locs, cache, trace ++ [Event.lookupCall loc])
        else (none, st.user_locations, st.emergency_cache, trace)
      -- STEP 3: Soulene draft
      let draft_reply :=
        SouleneAI.generate_response user_message (ch.get_history session_id)
          o.generateOutcome
      let trace := trace ++ [Event.generateCall user_message]
      -- lines 776-777: placeholder substitution
      let draft_reply :=
        if optStrTruthy emergency_number ∧
            pyContains "[EMERGENCY_NUMBER]" draft_reply then
          pyReplace draft_reply "[EMERGENCY_NUMBER]" (emergency_number.getD "")
        else draft_reply
      -- STEP 4: counter-AI refinement
      let refined_reply :=
        CounterAI.refine recent_context user_message draft_reply is_emergency
          (some pre_check_data) o.refineOutcome
      let trace := trace ++
        [Event.refineCall recent_context user_message draft_reply is_emergency]
      -- STEP 5: loop detection and control
      let (is_loop, ch) := ch.detect_loop session_id refined_reply
      let trace := trace ++ [Event.detectLoopCall refined_reply]
      let refined_reply := if is_loop then loopBreakReplyText else refined_reply
      -- STEP 6: finalize
      let final_reply := refined_reply
      let ch := ch.add_message session_id "assistant" final_reply o.now
      (.ok final_reply is_emergency emergency_type pre_check_data is_loop,
       ⟨ch, user_locations, cache⟩, trace)

/-- The pipeline stages at whose invocation an `UnexpectedFailure` can be
raised into the handler's outer `except` (lines 818-823). -/
inductive AbortStage where
  | preCheck
  | emergencyDetect
  | generate
  | refineStage
  | loopCheck
deriving DecidableEq

/-- The `POST /chat` handler when the named stage raises an unhandled
exception: the outer `except Exception` (lines 818-823) turns it into the
500 response, keeping every state mutation made before the raise.  When
control never reaches the named stage (empty message, or the pre-check
block short-circuit) the run coincides with `chat`. -/
def chatAborted (st : ServerState) (message session_id : String)
    (o : ChatOracles) (ab : AbortStage) : ChatResponse × ServerState :=
  let user_message := pyStripWs message
  if user_message = "" then (.badRequest, st)
  else
    let ch := st.conversation_history.add_message session_id "user" user_message o.now
    let st₁ := { st with conversation_history := ch }
    if ab = .preCheck then (.serverError, st₁)
    else
      let pre_check_data := PreCheckCounter.analyze o.preCheckOutcome
      if pre_check_data.block_response.truthy then
        let ch := ch.add_message session_id "assistant" emergencyReplyText o.now
        (.blocked emergencyReplyText true "critical" true,
         { st with conversation_history := ch })
      else if ab = .emergencyDetect then (.serverError, st₁)
      else
        let (is_emergency, emergency_type, _confidence) :=
          EmergencyDetector.detect o.detectOutcome
        let (emergency_number, user_locations, cache) :=
          if is_emergency then
            let (number, locs, cache, _loc) :=
              resolveEmergencyNumber st ch session_id o.lookupOutcome
            (some number, locs, cache)
          else (none, st.user_locations, st.emergency_cache)
        let st₂ : ServerState := ⟨ch, user_locations, cache⟩
        if ab = .generate then (.serverError, st₂)
        else
          let draft_reply :=
            SouleneAI.generate_response user_message (ch.get_history session_id)
              o.generateOutcome
          let draft_reply :=
            if optStrTruthy emergency_number ∧
                pyContains "[EMERGENCY_NUMBER]" draft_reply then
              pyReplace draft_reply "[EMERGENCY_NUMBER]" (emergency_number.getD "")
            else draft_reply
          if ab = .refineStage then (.serverError, st₂)
          else
            let refined_reply :=
              CounterAI.refine (ch.get_recent_context session_id 10) user_message
                draft_reply is_emergency (some pre_check_data) o.refineOutcome
            if ab = .loopCheck then (.serverError, st₂)
            else
              let (is_loop, ch) := ch.detect_loop session_id refined_reply
              let refined_reply := if is_loop then loopBreakReplyText else refined_reply
              let ch := ch.add_message session_id "assistant" refined_reply o.now
              (.ok refined_reply is_emergency emergency_type pre_check_data is_loop,
               ⟨ch, user_locations, cache⟩)

/-! ### Helper lemmas on the dictionary model -/

theorem dictLookup_dictSet_self {α : Type} (m : List (String × α)) (k : String) (v : α) :
    dictLookup (dictSet m k v) k = some v := by
  induction m with
  | nil => simp [dictSet, dictLookup]
  | cons p rest ih =>
    by_cases h : p.1 = k
    · simp [dictSet, dictLookup, h]
    · simpa [dictSet, dictLookup, h] using ih

theorem dictLookup_dictSet_other {α : Type} (m : List (String × α)) (k k' : String)
    (v : α) (h : k' ≠ k) : dictLookup (dictSet m k v) k' = dictLookup m k' := by
  have hk : ¬ k = k' := fun hh => h hh.symm
  induction m with
  | nil => simp [dictSet, dictLookup, hk]
  | cons p rest ih =>
    by_cases hp : p.1 = k
    · have hp' : ¬ p.1 = k' := by rw [hp]; exact hk
      simp [dictSet, dictLookup, hp, hp', hk]
    · simp [dictSet, dictLookup, hp, ih]

/-! ### C4 : the pre-screen fails open -/

/-- C4: whenever the pre-screen's external classifier call or the parsing
of its output fails (raises, times out, yields malformed output — oracle
`none` — or yields decoded non-dict output), `PreCheckCounter.analyze`
returns the all-safe default `RiskAssessment` (`risk_level="none"`,
`risk_type="none"`, `requires_intervention=False`,
`intervention_type="none"`, `block_response=False`); being a total
function, it propagates no error to its caller. -/
theorem preCheck_analyze_fails_open (outcome : Option Json)
    (h : ∀ fs, outcome ≠ some (Json.obj fs)) :
    PreCheckCounter.analyze outcome =
      ⟨.str "none", .str "none", .bool false, .str "none", .str "", .bool false⟩ := by
  match outcome with
  | none => rfl
  | some .null => rfl
  | some (.bool _) => rfl
  | some (.num _) => rfl
  | some (.str _) => rfl
  | some (.arr _) => rfl
  | some (.obj fs) => exact absurd rfl (h fs)

/-- Witness for C4: a raised/unparseable call (`none`) and a decoded
non-dict (a JSON array) both yield the all-safe default. -/
theorem preCheck_analyze_fails_open_witness :
    PreCheckCounter.analyze none =
      ⟨.str "none", .str "none", .bool false, .str "none", .str "", .bool false⟩ ∧
    PreCheckCounter.analyze (some (Json.arr [])) =
      ⟨.str "none", .str "none", .bool false, .str "none", .str "", .bool false⟩ :=
  ⟨preCheck_analyze_fails_open none (fun _ h => Option.noConfusion h),
   preCheck_analyze_fails_open (some (Json.arr []))
     (fun _ h => Json.noConfusion (Option.some.inj h))⟩

/-! ### C5 : low-confidence emergency positives are downgraded -/

/-- C5: a classifier output with truthy `is_emergency` and confidence
`"low"` makes `EmergencyDetector.detect` return `(False, 'none', 'low')` —
the very same emergency result as any non-emergency output with the same
confidence — and an emergency is returned only when `is_emergency` is
truthy with confidence `"high"` or `"medium"`. -/
theorem emergencyDetector_low_confidence_downgraded
    (fs fs' : List (String × Json))
    (hconf : jsonGet fs "confidence" (.str "low") = .str "low")
    (hpos : (jsonGet fs "is_emergency" (.bool false)).truthy = true)
    (hneg : (jsonGet fs' "is_emergency" (.bool false)).truthy = false)
    (hconf' : jsonGet fs' "confidence" (.str "low") = .str "low") :
    EmergencyDetector.detect (some (.obj fs)) = (false, Json.str "none", Json.str "low") ∧
    EmergencyDetector.detect (some (.obj fs)) = EmergencyDetector.detect (some (.obj fs')) ∧
    (∀ fs₂, (EmergencyDetector.detect (some (.obj fs₂))).1 = true →
      (jsonGet fs₂ "is_emergency" (.bool false)).truthy = true ∧
      isHighOrMedium (jsonGet fs₂ "confidence" (.str "low")) = true) := by
  refine ⟨?_, ?_, ?_⟩
  · simp [EmergencyDetector.detect, hconf, hpos, isHighOrMedium]
  · simp [EmergencyDetector.detect, hconf, hpos, hneg, hconf', isHighOrMedium]
  · intro fs₂ h
    by_cases he : (jsonGet fs₂ "is_emergency" (.bool false)).truthy = true
    · by_cases hc : isHighOrMedium (jsonGet fs₂ "confidence" (.str "low")) = true
      · exact ⟨he, hc⟩
      · simp [EmergencyDetector.detect, he, hc] at h
    · simp [EmergencyDetector.detect, he] at h

/-- Witness for C5: `{"is_emergency": true, "confidence": "low"}` is treated
exactly as `{}` (no emergency fields at all). -/
theorem emergencyDetector_low_confidence_downgraded_witness :
    EmergencyDetector.detect
      (some (.obj [("is_emergency", Json.bool true), ("confidence", Json.str "low")])) =
      (false, Json.str "none", Json.str "low") ∧
    EmergencyDetector.detect
      (some (.obj [("is_emergency", Json.bool true), ("confidence", Json.str "low")])) =
      EmergencyDetector.detect (some (.obj [])) ∧
    (∀ fs₂, (EmergencyDetector.detect (some (.obj fs₂))).1 = true →
      (jsonGet fs₂ "is_emergency" (.bool false)).truthy = true ∧
      isHighOrMedium (jsonGet fs₂ "confidence" (.str "low")) = true) :=
  emergencyDetector_low_confidence_downgraded
    [("is_emergency", Json.bool true), ("confidence", Json.str "low")] []
    rfl rfl rfl rfl

/-! ### C2 : bounded FIFO history -/

/-- Collapsing two newest-`n` truncations: truncating, appending, and
truncating again is the same as appending and truncating once. -/
theorem drop_newest_collapse {α : Type} (n : Nat) (xs ys : List α) :
    ((xs.drop (xs.length - n)) ++ ys).drop
        (((xs.drop (xs.length - n)) ++ ys).length - n)
      = (xs ++ ys).drop ((xs ++ ys).length - n) := by
  by_cases h : xs.length ≤ n
  · have h0 : xs.length - n = 0 := by omega
    simp [h0]
  · have hA : (xs.drop (xs.length - n)).length = n := by
      simp only [List.length_drop]
      omega
    have h1 : ((xs.drop (xs.length - n)) ++ ys).length - n = ys.length := by
      simp [List.length_append, hA]
    have h2 : (xs ++ ys).length - n = (xs.take (xs.length - n)).length + ys.length := by
      simp only [List.length_append, List.length_take]
      omega
    have h3 : xs ++ ys = xs.take (xs.length - n) ++ ((xs.drop (xs.length - n)) ++ ys) := by
      rw [← List.append_assoc, List.take_append_drop]
    calc ((xs.drop (xs.length - n)) ++ ys).drop
            (((xs.drop (xs.length - n)) ++ ys).length - n)
        = ((xs.drop (xs.length - n)) ++ ys).drop ys.length := by rw [h1]
      _ = (xs ++ ys).drop ((xs ++ ys).length - n) := by
            rw [h2]
            conv_lhs => rw [← @List.drop_append _ (xs.take (xs.length - n))
              ((xs.drop (xs.length - n)) ++ ys) ys.length]
            rw [← h3]

/-- One `add_message` call, seen through `get_history`: the appended list
truncated to the newest `max_length` turns (for a positive
`max_length`). -/
theorem get_history_add_message (ch : ConversationHistory) (sid r c t : String)
    (hmax : 1 ≤ ch.max_length) :
    (ch.add_message sid r c t).get_history sid =
      ((ch.get_history sid) ++ [Turn.mk r c t]).drop
        (((ch.get_history sid) ++ [Turn.mk r c t]).length - ch.max_length) := by
  have hn : ¬ ch.max_length = 0 := by omega
  simp only [ConversationHistory.add_message, ConversationHistory.get_history,
    dictLookup_dictSet_self, Option.getD_some, pyTakeLast, if_neg hn]
  split
  · rfl
  · rename_i hlen
    have h0 :
        (((dictLookup ch.histories sid).getD []) ++ [Turn.mk r c t]).length
          - ch.max_length = 0 := by
      simp only [List.length_append, List.length_cons, List.length_nil]
      simp only [List.length_append, List.length_cons, List.length_nil] at hlen
      omega
    rw [h0, List.drop_zero]

/-- `N` sequential `add_message` calls on one session (the claim's "`N`
calls", one `(role, content, timestamp)` triple per call). -/
def ConversationHistory.add_messages (self : ConversationHistory) (session_id : String)
    (msgs : List (String × String × String)) : ConversationHistory :=
  msgs.foldl (fun ch m => ch.add_message session_id m.1 m.2.1 m.2.2) self

/-- The fold form of C2: starting from any state whose session history
respects the bound, the history after the calls is the concatenation
truncated to the newest `max_length` turns. -/
theorem get_history_add_messages (ch : ConversationHistory) (sid : String)
    (msgs : List (String × String × String)) (hmax : 1 ≤ ch.max_length)
    (hlen : (ch.get_history sid).length ≤ ch.max_length) :
    (ch.add_messages sid msgs).get_history sid =
      ((ch.get_history sid) ++ msgs.map (fun m => Turn.mk m.1 m.2.1 m.2.2)).drop
        (((ch.get_history sid) ++ msgs.map (fun m => Turn.mk m.1 m.2.1 m.2.2)).length
          - ch.max_length) := by
  induction msgs generalizing ch with
  | nil =>
    have h0 : (ch.get_history sid).length - ch.max_length = 0 := by omega
    simp [ConversationHistory.add_messages, h0]
  | cons m rest ih =>
    have hstep := get_history_add_message ch sid m.1 m.2.1 m.2.2 hmax
    have hmax' : 1 ≤ (ch.add_message sid m.1 m.2.1 m.2.2).max_length := hmax
    have hlen' :
        ((ch.add_message sid m.1 m.2.1 m.2.2).get_history sid).length
          ≤ (ch.add_message sid m.1 m.2.1 m.2.2).max_length := by
      rw [hstep]
      simp only [List.length_drop]
      show _ ≤ ch.max_length
      omega
    have hrec := ih (ch.add_message sid m.1 m.2.1 m.2.2) hmax' hlen'
    have hfold :
        (ch.add_messages sid (m :: rest)).get_history sid
          = ((ch.add_message sid m.1 m.2.1 m.2.2).add_messages sid rest).get_history sid := by
      simp [ConversationHistory.add_messages]
    rw [hfold, hrec, hstep]
    have hml : ∀ a b c, (ch.add_message sid a b c).max_length = ch.max_length :=
      fun _ _ _ => rfl
    have hcollapse := drop_newest_collapse ch.max_length
      ((ch.get_history sid) ++ [Turn.mk m.1 m.2.1 m.2.2])
      (rest.map (fun m => Turn.mk m.1 m.2.1 m.2.2))
    simp only [hml, List.append_nil, List.append_assoc, List.singleton_append,
      List.map_cons] at hcollapse ⊢
    exact hcollapse

/-- C2: for a fresh session and any sequence of `N` `add_message` calls
(any `max_length ≥ 1`; the server uses the default 50), the session history
afterwards is exactly the newest `min N max_length` appended turns in
original append order — i.e. the appended sequence with its oldest
overflow dropped — and `add_message` leaves every history at length
`≤ max_length` no matter the prior state. -/
theorem conversationHistory_bounded_fifo (max : Nat) (hmax : 1 ≤ max)
    (sid : String) (msgs : List (String × String × String)) :
    ((ConversationHistory.mk max [] []).add_messages sid msgs).get_history sid =
      (msgs.map (fun m => Turn.mk m.1 m.2.1 m.2.2)).drop (msgs.length - max) ∧
    (((ConversationHistory.mk max [] []).add_messages sid msgs).get_history sid).length
      = min msgs.length max ∧
    (∀ (ch₀ : ConversationHistory) (r c t : String), 1 ≤ ch₀.max_length →
      ((ch₀.add_message sid r c t).get_history sid).length ≤ ch₀.max_length) := by
  have hempty : ((ConversationHistory.mk max [] []).get_history sid) = [] := by
    simp [ConversationHistory.get_history, dictLookup]
  have hmain := get_history_add_messages (ConversationHistory.mk max [] []) sid msgs
    hmax (by simp [hempty])
  rw [hempty] at hmain
  simp only [List.nil_append] at hmain
  refine ⟨?_, ?_, ?_⟩
  · rw [hmain]
    simp [List.length_map]
  · rw [hmain]
    simp only [List.length_drop, List.length_map]
    omega
  · intro ch₀ r c t hm
    rw [get_history_add_message ch₀ sid r c t hm]
    simp only [List.length_drop]
    omega

/-- Witness for C2: three appends into a fresh store with the server's
`max_length = 50`. -/
theorem conversationHistory_bounded_fifo_witness :
    ((ConversationHistory.mk 50 [] []).add_messages "s"
        [("user", "a", "t1"), ("assistant", "b", "t2"), ("user", "c", "t3")]).get_history "s" =
      ([("user", "a", "t1"), ("assistant", "b", "t2"), ("user", "c", "t3")].map
        (fun m => Turn.mk m.1 m.2.1 m.2.2)).drop
        ([("user", "a", "t1"), ("assistant", "b", "t2"), ("user", "c", "t3")].length - 50) ∧
    (((ConversationHistory.mk 50 [] []).add_messages "s"
        [("user", "a", "t1"), ("assistant", "b", "t2"), ("user", "c", "t3")]).get_history "s").length
      = min [("user", "a", "t1"), ("assistant", "b", "t2"), ("user", "c", "t3")].length 50 ∧
    (∀ (ch₀ : ConversationHistory) (r c t : String), 1 ≤ ch₀.max_length →
      ((ch₀.add_message "s" r c t).get_history "s").length ≤ ch₀.max_length) :=
  conversationHistory_bounded_fifo 50 (by decide) "s"
    [("user", "a", "t1"), ("assistant", "b", "t2"), ("user", "c", "t3")]

/-! ### C3 / C9 : loop detection -/

/-- The session's loop window (its `loop_tracker` entry, `[]` when
absent). -/
def ConversationHistory.windowOf (self : ConversationHistory) (session_id : String) :
    List String :=
  (dictLookup self.loop_tracker session_id).getD []

theorem pyTakeLast_of_le {α : Type} (n : Nat) (xs : List α) (h : xs.length ≤ n) :
    pyTakeLast n xs = xs := by
  by_cases hn : n = 0
  · simp [pyTakeLast, hn]
  · have h0 : xs.length - n = 0 := by omega
    simp [pyTakeLast, hn, h0]

theorem detect_loop_true_iff (ch : ConversationHistory) (sid resp : String) :
    (ch.detect_loop sid resp).1 = true ↔
      (ConversationHistory.has_grounding resp = true ∧
        2 ≤ (pyTakeLast 3 (ch.windowOf sid)).countP ConversationHistory.has_grounding) := by
  unfold ConversationHistory.detect_loop ConversationHistory.windowOf
  by_cases hmiss : (dictLookup ch.loop_tracker sid).isNone
  · have h0 : dictLookup ch.loop_tracker sid = none := Option.isNone_iff_eq_none.mp hmiss
    simp [hmiss, h0, dictLookup_dictSet_self, pyTakeLast]
  · simp only [hmiss, if_false, Bool.false_eq_true]
    by_cases hcond : (ConversationHistory.has_grounding resp = true ∧
        2 ≤ (pyTakeLast 3 ((dictLookup ch.loop_tracker sid).getD [])).countP
          ConversationHistory.has_grounding)
    · simp [hcond]
    · simp [hcond]

theorem detect_loop_true_snd (ch : ConversationHistory) (sid resp : String)
    (h : (ch.detect_loop sid resp).1 = true) :
    (ch.detect_loop sid resp).2 = ch := by
  have hiff := (detect_loop_true_iff ch sid resp).mp h
  by_cases hmiss : (dictLookup ch.loop_tracker sid).isNone
  · exfalso
    have h0 : dictLookup ch.loop_tracker sid = none := Option.isNone_iff_eq_none.mp hmiss
    rw [ConversationHistory.windowOf, h0] at hiff
    simp [pyTakeLast] at hiff
  · unfold ConversationHistory.detect_loop
    rw [ConversationHistory.windowOf] at hiff
    simp only [hmiss, if_false, Bool.false_eq_true]
    rw [if_pos hiff]

theorem detect_loop_false_window (ch : ConversationHistory) (sid resp : String)
    (h : (ch.detect_loop sid resp).1 = false) :
    (ch.detect_loop sid resp).2.windowOf sid = pyTakeLast 5 (ch.windowOf sid ++ [resp]) := by
  by_cases hmiss : (dictLookup ch.loop_tracker sid).isNone
  · have h0 : dictLookup ch.loop_tracker sid = none := Option.isNone_iff_eq_none.mp hmiss
    simp [ConversationHistory.detect_loop, ConversationHistory.windowOf, hmiss, h0,
      dictLookup_dictSet_self, pyTakeLast]
  · by_cases hcond : (ConversationHistory.has_grounding resp = true ∧
        2 ≤ (pyTakeLast 3 ((dictLookup ch.loop_tracker sid).getD [])).countP
          ConversationHistory.has_grounding)
    · exfalso
      have htrue := (detect_loop_true_iff ch sid resp).mpr
        (by simpa [ConversationHistory.windowOf] using hcond)
      simp [htrue] at h
    · by_cases hlen : (((dictLookup ch.loop_tracker sid).getD []) ++ [resp]).length > 5
      · simp [ConversationHistory.detect_loop, ConversationHistory.windowOf, hmiss,
          dictLookup_dictSet_self, hcond, hlen]
        intro h4
        exfalso
        simp only [List.length_append, List.length_cons, List.length_nil] at hlen
        omega
      · simp [ConversationHistory.detect_loop, ConversationHistory.windowOf, hmiss,
          dictLookup_dictSet_self, hcond, hlen, pyTakeLast_of_le _ _ (by omega :
            (((dictLookup ch.loop_tracker sid).getD []) ++ [resp]).length ≤ 5)]

/-- C3: `detect_loop` returns true exactly when the candidate has a
grounding keyword and at least 2 of the last 3 window entries do; on true
the window is unchanged (candidate not appended), on false the candidate
is appended with the window capped at the newest 5 entries; in particular
three consecutive grounding replies on a fresh session make the third
call return true, while after only two both calls return false and both
replies are retained. -/
theorem detect_loop_spec (ch : ConversationHistory) (sid resp : String) :
    ((ch.detect_loop sid resp).1 = true ↔
      (ConversationHistory.has_grounding resp = true ∧
        2 ≤ (pyTakeLast 3 (ch.windowOf sid)).countP ConversationHistory.has_grounding)) ∧
    ((ch.detect_loop sid resp).1 = true →
      (ch.detect_loop sid resp).2.windowOf sid = ch.windowOf sid) ∧
    ((ch.detect_loop sid resp).1 = false →
      (ch.detect_loop sid resp).2.windowOf sid =
        pyTakeLast 5 (ch.windowOf sid ++ [resp])) ∧
    (∀ r₁ r₂ r₃ : String, ConversationHistory.has_grounding r₁ = true →
      ConversationHistory.has_grounding r₂ = true →
      ConversationHistory.has_grounding r₃ = true →
      ch.windowOf sid = [] →
      (ch.detect_loop sid r₁).1 = false ∧
      ((ch.detect_loop sid r₁).2.detect_loop sid r₂).1 = false ∧
      ((ch.detect_loop sid r₁).2.detect_loop sid r₂).2.windowOf sid = [r₁, r₂] ∧
      (((ch.detect_loop sid r₁).2.detect_loop sid r₂).2.detect_loop sid r₃).1 = true) := by
  refine ⟨detect_loop_true_iff ch sid resp,
    fun h => by rw [detect_loop_true_snd ch sid resp h],
    detect_loop_false_window ch sid resp, ?_⟩
  intro r₁ r₂ r₃ hg1 hg2 hg3 hw
  have h1 : (ch.detect_loop sid r₁).1 = false := by
    cases hb : (ch.detect_loop sid r₁).1
    · rfl
    · have := (detect_loop_true_iff ch sid r₁).mp hb
      rw [hw] at this
      simp [pyTakeLast] at this
  have w1 : (ch.detect_loop sid r₁).2.windowOf sid = [r₁] := by
    rw [detect_loop_false_window ch sid r₁ h1, hw]
    simp [pyTakeLast]
  have h2 : ((ch.detect_loop sid r₁).2.detect_loop sid r₂).1 = false := by
    cases hb : ((ch.detect_loop sid r₁).2.detect_loop sid r₂).1
    · rfl
    · have := (detect_loop_true_iff _ sid r₂).mp hb
      rw [w1] at this
      have hle : ([r₁] : List String).length ≤ 3 := by simp
      rw [pyTakeLast_of_le 3 [r₁] hle] at this
      simp [List.countP_cons, hg1] at this
  have w2 : ((ch.detect_loop sid r₁).2.detect_loop sid r₂).2.windowOf sid = [r₁, r₂] := by
    rw [detect_loop_false_window _ sid r₂ h2, w1]
    simp [pyTakeLast]
  have h3 : (((ch.detect_loop sid r₁).2.detect_loop sid r₂).2.detect_loop sid r₃).1 = true := by
    rw [detect_loop_true_iff]
    refine ⟨hg3, ?_⟩
    rw [w2]
    have hle : ([r₁, r₂] : List String).length ≤ 3 := by simp
    rw [pyTakeLast_of_le 3 [r₁, r₂] hle]
    simp [List.countP_cons, hg1, hg2]
  exact ⟨h1, h2, w2, h3⟩

/-! ### C8 : the recent-context window -/

/-- C8 (amended to positive limits): for every `limit ≥ 1`,
`get_recent_context` renders exactly the newest `min limit len` turns —
the history with everything older than the `limit`-th most recent turn
dropped — oldest-first as labelled lines; it is a pure function of the
state, mutating nothing by construction. -/
theorem get_recent_context_newest (ch : ConversationHistory) (sid : String)
    (limit : Nat) (hl : 1 ≤ limit) :
    ch.get_recent_context sid limit =
      ConversationHistory.renderContext ((ch.get_history sid).drop ((ch.get_history sid).length - limit)) ∧
    ((ch.get_history sid).drop ((ch.get_history sid).length - limit)).length
      = min limit (ch.get_history sid).length := by
  constructor
  · simp only [ConversationHistory.get_recent_context]
    by_cases h : (ch.get_history sid).length > limit
    · rw [if_pos h]
      have hn : ¬ limit = 0 := by omega
      rw [pyTakeLast, if_neg hn]
    · rw [if_neg h]
      have h0 : (ch.get_history sid).length - limit = 0 := by omega
      rw [h0, List.drop_zero]
  · simp only [List.length_drop]
    omega

/-- Witness for C8: a two-turn history viewed through `limit = 1` keeps
only the newest turn. -/
theorem get_recent_context_newest_witness :
    (((ConversationHistory.mk 50 [] []).add_message "s" "user" "hi" "t0").add_message
        "s" "assistant" "hello" "t1").get_recent_context "s" 1 =
      ConversationHistory.renderContext
        (((((ConversationHistory.mk 50 [] []).add_message "s" "user" "hi" "t0").add_message
            "s" "assistant" "hello" "t1").get_history "s").drop
          ((((((ConversationHistory.mk 50 [] []).add_message "s" "user" "hi" "t0").add_message
            "s" "assistant" "hello" "t1")).get_history "s").length - 1)) ∧
    (((((ConversationHistory.mk 50 [] []).add_message "s" "user" "hi" "t0").add_message
        "s" "assistant" "hello" "t1").get_history "s").drop
      ((((((ConversationHistory.mk 50 [] []).add_message "s" "user" "hi" "t0").add_message
        "s" "assistant" "hello" "t1")).get_history "s").length - 1)).length =
      min 1 (((((ConversationHistory.mk 50 [] []).add_message "s" "user" "hi" "t0").add_message
        "s" "assistant" "hello" "t1")).get_history "s").length :=
  get_recent_context_newest
    (((ConversationHistory.mk 50 [] []).add_message "s" "user" "hi" "t0").add_message
      "s" "assistant" "hello" "t1") "s" 1 (by decide)

/-- Counterexample to C8 as stated for every limit: at `limit = 0` the
Python slice `history[-0:]` is the whole history, so `get_recent_context`
returns every turn instead of the newest zero turns (the empty
rendering). -/
theorem get_recent_context_zero_counterexample :
    ((ConversationHistory.mk 50 [] []).add_message "s" "user" "hi" "t0").get_recent_context
        "s" 0 = "User: hi\n" ∧
    ¬ ((ConversationHistory.mk 50 [] []).add_message "s" "user" "hi" "t0").get_recent_context
        "s" 0 = ConversationHistory.renderContext [] := by
  constructor
  · rfl
  · decide

/-! ### C1 : the pre-check block short-circuits the pipeline -/

/-- C1: when the pre-screen assessment has a truthy `block_response`, the
handler answers 200 with the fixed crisis-referral reply tagged
`is_emergency=True`, `emergency_type="critical"`,
`pre_check_intervention=True`, and the stage trace holds the pre-check
call alone — no `EmergencyDetector.detect`, `SouleneAI.generate_response`,
`CounterAI.refine` or `detect_loop` call occurs. -/
theorem chat_preCheck_block_short_circuit (st : ServerState) (msg sid : String)
    (o : ChatOracles) (hmsg : ¬ pyStripWs msg = "")
    (hblock : (PreCheckCounter.analyze o.preCheckOutcome).block_response.truthy = true) :
    (chat st msg sid o).1 = ChatResponse.blocked emergencyReplyText true "critical" true ∧
    (chat st msg sid o).2.2 =
      [Event.preCheckCall (pyStripWs msg)
        ((st.conversation_history.add_message sid "user" (pyStripWs msg) o.now).get_recent_context
          sid 10)] := by
  simp only [chat, if_neg hmsg, hblock, if_true]
  exact ⟨trivial, trivial⟩

/-- Witness for C1: a concrete blocked request. -/
theorem chat_preCheck_block_short_circuit_witness :
    (chat initialServerState "help" "s"
        ⟨some (.obj [("block_response", .bool true)]), none, none, none, none, "t"⟩).1
      = ChatResponse.blocked emergencyReplyText true "critical" true ∧
    (chat initialServerState "help" "s"
        ⟨some (.obj [("block_response", .bool true)]), none, none, none, none, "t"⟩).2.2 =
      [Event.preCheckCall (pyStripWs "help")
        ((initialServerState.conversation_history.add_message "s" "user" (pyStripWs "help")
          "t").get_recent_context "s" 10)] :=
  chat_preCheck_block_short_circuit initialServerState "help" "s"
    ⟨some (.obj [("block_response", .bool true)]), none, none, none, none, "t"⟩
    (by decide) rfl

/-! ### C6 : what an aborted request leaves in session history -/

/-- C6 (amended): a request that aborts with the 500 response does leave
the session history changed — the user turn is committed at line 720,
before any pipeline stage — but exactly by that one already-committed user
turn: the histories map equals the map after the single user-turn append,
and no assistant turn is committed (the loop tracker is untouched too). -/
theorem chatAborted_history_only_user_turn (st : ServerState) (msg sid : String)
    (o : ChatOracles) (ab : AbortStage)
    (h : (chatAborted st msg sid o ab).1 = ChatResponse.serverError) :
    (chatAborted st msg sid o ab).2.conversation_history.histories =
      (st.conversation_history.add_message sid "user" (pyStripWs msg) o.now).histories ∧
    (chatAborted st msg sid o ab).2.conversation_history.loop_tracker =
      st.conversation_history.loop_tracker := by
  by_cases h0 : pyStripWs msg = ""
  · rw [chatAborted, if_pos h0] at h
    exact ChatResponse.noConfusion h
  · by_cases hab1 : ab = AbortStage.preCheck
    · rw [chatAborted, if_neg h0]
      simp only [hab1, if_true]
      constructor <;> trivial
    · by_cases hbl : (PreCheckCounter.analyze o.preCheckOutcome).block_response.truthy = true
      · rw [chatAborted, if_neg h0] at h
        simp only [hab1, if_false, hbl, if_true] at h
        exact ChatResponse.noConfusion h
      · by_cases hab2 : ab = AbortStage.emergencyDetect
        · rw [chatAborted, if_neg h0]
          simp only [hab1, if_false, hbl, hab2, if_true]
          constructor <;> trivial
        · by_cases hab3 : ab = AbortStage.generate
          · rw [chatAborted, if_neg h0]
            simp only [hab1, if_false, hbl, hab2, hab3, if_true]
            constructor <;> trivial
          · by_cases hab4 : ab = AbortStage.refineStage
            · rw [chatAborted, if_neg h0]
              simp only [hab1, if_false, hbl, hab2, hab3, hab4, if_true]
              constructor <;> trivial
            · by_cases hab5 : ab = AbortStage.loopCheck
              · rw [chatAborted, if_neg h0]
                simp only [hab1, if_false, hbl, hab2, hab3, hab4, hab5, if_true]
                constructor <;> trivial
              · exfalso
                rw [chatAborted, if_neg h0] at h
                simp only [hab1, if_false, hbl, hab2, hab3, hab4, hab5] at h
                exact ChatResponse.noConfusion h

/-- Witness for C6's amended theorem: a concrete abort at the pre-check
stage. -/
theorem chatAborted_history_only_user_turn_witness :
    (chatAborted initialServerState "hello" "s" ⟨none, none, none, none, none, "t0"⟩
        AbortStage.preCheck).2.conversation_history.histories =
      (initialServerState.conversation_history.add_message "s" "user"
        (pyStripWs "hello") "t0").histories ∧
    (chatAborted initialServerState "hello" "s" ⟨none, none, none, none, none, "t0"⟩
        AbortStage.preCheck).2.conversation_history.loop_tracker =
      initialServerState.conversation_history.loop_tracker :=
  chatAborted_history_only_user_turn initialServerState "hello" "s"
    ⟨none, none, none, none, none, "t0"⟩ AbortStage.preCheck rfl

/-- Counterexample to C6 as stated: a request that aborts at the pre-check
stage produces the 500 response, yet the session's history is NOT left
unchanged — the user turn committed at line 720 (before the pre-screen)
remains in it. -/
theorem chat_abort_commits_user_turn_counterexample :
    (chatAborted initialServerState "hello" "s" ⟨none, none, none, none, none, "t0"⟩
        AbortStage.preCheck).1 = ChatResponse.serverError ∧
    ¬ ((chatAborted initialServerState "hello" "s" ⟨none, none, none, none, none, "t0"⟩
        AbortStage.preCheck).2.conversation_history.get_history "s" =
      initialServerState.conversation_history.get_history "s") :=
  ⟨rfl, by decide⟩

/-! ### C9 : a detected loop leaves the window untouched -/

/-- The `loop_detected` field of a chat response (`False` off the ok
path). -/
def ChatResponse.loopDetected : ChatResponse → Bool
  | .ok _ _ _ _ l => l
  | _ => false

/-- C9: on a turn where `detect_loop` fires, the session's loop window
after the turn is exactly the window before it — neither the refined
reply that triggered the loop nor the fixed pattern-breaking replacement
(which the response delivers) is recorded — so any immediately following
grounding-flavored reply re-triggers loop detection against the same
window entries. -/
theorem chat_loop_detected_window_frame (st : ServerState) (msg sid : String)
    (o : ChatOracles) (hmsg : ¬ pyStripWs msg = "")
    (hblock : (PreCheckCounter.analyze o.preCheckOutcome).block_response.truthy = false)
    (hloop : (chat st msg sid o).1.loopDetected = true) :
    (chat st msg sid o).2.1.conversation_history.windowOf sid
      = st.conversation_history.windowOf sid ∧
    (∀ r', ConversationHistory.has_grounding r' = true →
      ((chat st msg sid o).2.1.conversation_history.detect_loop sid r').1 = true) ∧
    (chat st msg sid o).1 = ChatResponse.ok loopBreakReplyText
      (EmergencyDetector.detect o.detectOutcome).1
      (EmergencyDetector.detect o.detectOutcome).2.1
      (PreCheckCounter.analyze o.preCheckOutcome) true := by
  simp only [chat, if_neg hmsg, hblock, Bool.false_eq_true, if_false,
    ChatResponse.loopDetected] at hloop ⊢
  have hsnd := detect_loop_true_snd _ _ _ hloop
  refine ⟨?_, ?_, ?_⟩
  · rw [hsnd]
    rfl
  · intro r' hg'
    have hcount := ((detect_loop_true_iff _ _ _).mp hloop).2
    rw [hsnd]
    exact (detect_loop_true_iff _ _ _).mpr ⟨hg', hcount⟩
  · simp only [hloop, if_true]

/-- A server state whose session `"s"` already has two grounding-flavored
replies in its loop window. -/
def loopPrimedState : ServerState :=
  ⟨⟨50, [], [("s", ["sit down please", "now breathe slowly"])]⟩, [], []⟩

/-- The oracles of a turn whose refined reply is grounding-flavored. -/
def loopPrimedOracles : ChatOracles :=
  ⟨none, none, none, some "a draft", some "stay present with me", "t"⟩

/-- Witness for C9: on the concrete loop-detected turn the window is
unchanged and a following grounding reply re-triggers. -/
theorem chat_loop_detected_window_frame_witness :
    (chat loopPrimedState "I feel stuck" "s" loopPrimedOracles).2.1.conversation_history.windowOf
        "s" = loopPrimedState.conversation_history.windowOf "s" ∧
    (∀ r', ConversationHistory.has_grounding r' = true →
      ((chat loopPrimedState "I feel stuck" "s"
        loopPrimedOracles).2.1.conversation_history.detect_loop "s" r').1 = true) ∧
    (chat loopPrimedState "I feel stuck" "s" loopPrimedOracles).1 =
      ChatResponse.ok loopBreakReplyText
        (EmergencyDetector.detect loopPrimedOracles.detectOutcome).1
        (EmergencyDetector.detect loopPrimedOracles.detectOutcome).2.1
        (PreCheckCounter.analyze loopPrimedOracles.preCheckOutcome) true :=
  chat_loop_detected_window_frame loopPrimedState "I feel stuck" "s" loopPrimedOracles
    (by decide) rfl rfl

/-! ### C10 : no substitution on non-emergency turns -/

/-- C10: when emergency detection returns `is_emergency=False`, no
placeholder substitution happens — the refiner receives the raw draft
(token intact if present) — and when the refiner also fails open
(oracle `none`) and no loop fires, that very draft is the delivered
reply. -/
theorem chat_non_emergency_no_substitution (st : ServerState) (msg sid : String)
    (o : ChatOracles) (hmsg : ¬ pyStripWs msg = "")
    (hblock : (PreCheckCounter.analyze o.preCheckOutcome).block_response.truthy = false)
    (hdet : (EmergencyDetector.detect o.detectOutcome).1 = false)
    (href : o.refineOutcome = none) :
    (chat st msg sid o).2.2 =
      [Event.preCheckCall (pyStripWs msg)
        ((st.conversation_history.add_message sid "user" (pyStripWs msg)
          o.now).get_recent_context sid 10),
       Event.detectCall (pyStripWs msg),
       Event.generateCall (pyStripWs msg),
       Event.refineCall
         ((st.conversation_history.add_message sid "user" (pyStripWs msg)
           o.now).get_recent_context sid 10)
         (pyStripWs msg)
         (SouleneAI.generate_response (pyStripWs msg)
           ((st.conversation_history.add_message sid "user" (pyStripWs msg)
             o.now).get_history sid) o.generateOutcome)
         false,
       Event.detectLoopCall
         (SouleneAI.generate_response (pyStripWs msg)
           ((st.conversation_history.add_message sid "user" (pyStripWs msg)
             o.now).get_history sid) o.generateOutcome)] ∧
    (((st.conversation_history.add_message sid "user" (pyStripWs msg) o.now).detect_loop
        sid (SouleneAI.generate_response (pyStripWs msg)
          ((st.conversation_history.add_message sid "user" (pyStripWs msg)
            o.now).get_history sid) o.generateOutcome)).1 = false →
      (chat st msg sid o).1 = ChatResponse.ok
        (SouleneAI.generate_response (pyStripWs msg)
          ((st.conversation_history.add_message sid "user" (pyStripWs msg)
            o.now).get_history sid) o.generateOutcome)
        false (EmergencyDetector.detect o.detectOutcome).2.1
        (PreCheckCounter.analyze o.preCheckOutcome) false) := by
  simp only [chat, if_neg hmsg, hblock, Bool.false_eq_true, if_false, hdet, href,
    optStrTruthy, CounterAI.refine, false_and]
  refine ⟨by simp, ?_⟩
  intro hl
  simp [hl]

/-- Witness for C10: with the model unavailable, the deterministic
fallback's urgent-escalation line — which contains the literal
`[EMERGENCY_NUMBER]` token — passes through the failed-open refiner and is
delivered to the user with the token intact. -/
theorem chat_non_emergency_no_substitution_witness :
    ((chat initialServerState "I am going to kill myself" "s"
        ⟨none, none, none, none, none, "t"⟩).2.2 =
      [Event.preCheckCall (pyStripWs "I am going to kill myself")
        ((initialServerState.conversation_history.add_message "s" "user"
          (pyStripWs "I am going to kill myself") "t").get_recent_context "s" 10),
       Event.detectCall (pyStripWs "I am going to kill myself"),
       Event.generateCall (pyStripWs "I am going to kill myself"),
       Event.refineCall
         ((initialServerState.conversation_history.add_message "s" "user"
           (pyStripWs "I am going to kill myself") "t").get_recent_context "s" 10)
         (pyStripWs "I am going to kill myself")
         (SouleneAI.generate_response (pyStripWs "I am going to kill myself")
           ((initialServerState.conversation_history.add_message "s" "user"
             (pyStripWs "I am going to kill myself") "t").get_history "s") none)
         false,
       Event.detectLoopCall
         (SouleneAI.generate_response (pyStripWs "I am going to kill myself")
           ((initialServerState.conversation_history.add_message "s" "user"
             (pyStripWs "I am going to kill myself") "t").get_history "s") none)] ∧
    (((initialServerState.conversation_history.add_message "s" "user"
        (pyStripWs "I am going to kill myself") "t").detect_loop
        "s" (SouleneAI.generate_response (pyStripWs "I am going to kill myself")
          ((initialServerState.conversation_history.add_message "s" "user"
            (pyStripWs "I am going to kill myself") "t").get_history "s") none)).1 = false →
      (chat initialServerState "I am going to kill myself" "s"
        ⟨none, none, none, none, none, "t"⟩).1 = ChatResponse.ok
        (SouleneAI.generate_response (pyStripWs "I am going to kill myself")
          ((initialServerState.conversation_history.add_message "s" "user"
            (pyStripWs "I am going to kill myself") "t").get_history "s") none)
        false (EmergencyDetector.detect none).2.1
        (PreCheckCounter.analyze none) false)) ∧
    (chat initialServerState "I am going to kill myself" "s"
        ⟨none, none, none, none, none, "t"⟩).1 = ChatResponse.ok
      "Urgentâ€”call [EMERGENCY_NUMBER] now. Are you still there?" false (Json.str "none")
      safeDefaultAssessment false ∧
    pyContains "[EMERGENCY_NUMBER]"
      "Urgentâ€”call [EMERGENCY_NUMBER] now. Are you still there?" = true :=
  ⟨chat_non_emergency_no_substitution initialServerState "I am going to kill myself" "s"
      ⟨none, none, none, none, none, "t"⟩ (by decide) rfl rfl rfl,
   rfl, by decide⟩

/-! ### C7 : placeholder substitution — token-occurrence machinery -/

/-- Bridge between the executable `List.isPrefixOf` and `List.IsPrefix`. -/
theorem isPrefixOfIff {α : Type} [DecidableEq α] (t s : List α) :
    t.isPrefixOf s = true ↔ t <+: s := List.isPrefixOf_iff_prefix

/-- A token-free with respect to `t` empty list. -/
theorem hasSubstr_nil {α : Type} [DecidableEq α] (t : List α) (ht : t ≠ []) :
    hasSubstr t ([] : List α) = false := by
  cases t with
  | nil => exact absurd rfl ht
  | cons b t' => rfl

/-- A prefix of `x ++ v` that is not a prefix of `x` overruns `x` into
`v`. -/
theorem isPrefixOf_append_extend {α : Type} [DecidableEq α] (t x v : List α)
    (h : t.isPrefixOf (x ++ v) = true) (hx : t.isPrefixOf x = false) :
    ∃ t₂, t₂ ≠ [] ∧ t = x ++ t₂ ∧ t₂.isPrefixOf v = true := by
  induction x generalizing t with
  | nil =>
    refine ⟨t, ?_, rfl, by simpa using h⟩
    intro ht
    rw [ht] at hx
    simp [List.isPrefixOf] at hx
  | cons a x' ih =>
    cases t with
    | nil => simp [List.isPrefixOf] at hx
    | cons b t' =>
      simp only [List.cons_append, List.isPrefixOf, Bool.and_eq_true, beq_iff_eq] at h
      obtain ⟨hba, h'⟩ := h
      have hx' : t'.isPrefixOf x' = false := by
        cases hpx : t'.isPrefixOf x'
        · rfl
        · exfalso
          rw [show (b :: t').isPrefixOf (a :: x')
              = (b == a && t'.isPrefixOf x') from rfl] at hx
          simp [hba, hpx] at hx
      obtain ⟨t₂, ht₂, heq, hp⟩ := ih t' h' hx'
      exact ⟨t₂, ht₂, by rw [heq, hba, List.cons_append], hp⟩

/-- An occurrence inside `u ++ v` cannot touch `u` when no element of `u`
belongs to `t`: it lies in `v`. -/
theorem hasSubstr_append_right_of_disjoint {α : Type} [DecidableEq α]
    (t v : List α) (ht : t ≠ []) :
    ∀ u : List α, (∀ c ∈ u, c ∉ t) → hasSubstr t (u ++ v) = true →
      hasSubstr t v = true := by
  intro u
  induction u with
  | nil =>
    intro _ h
    simpa using h
  | cons c u' ih =>
    intro hd h
    simp only [List.cons_append, hasSubstr, Bool.or_eq_true] at h
    rcases h with hpre | hrest
    · exfalso
      cases t with
      | nil => exact ht rfl
      | cons b t' =>
        simp only [List.isPrefixOf, Bool.and_eq_true, beq_iff_eq] at hpre
        exact hd c (List.mem_cons_self c u') (by rw [← hpre.1]; exact List.mem_cons_self b t')
    · exact ih (fun c' hc' => hd c' (List.mem_cons_of_mem _ hc')) hrest

/-- Concatenating a token-free `p` in front of a token-free `v` whose head
is not an element of `t` creates no occurrence. -/
theorem hasSubstr_append_block {α : Type} [DecidableEq α] (t : List α) (ht : t ≠ []) :
    ∀ p v : List α, hasSubstr t p = false → hasSubstr t v = false →
      (∀ h0, v.head? = some h0 → h0 ∉ t) → hasSubstr t (p ++ v) = false := by
  intro p
  induction p with
  | nil =>
    intro v _ hv _
    simpa using hv
  | cons c p' ih =>
    intro v hp hv hhead
    simp only [hasSubstr, Bool.or_eq_false_iff] at hp
    obtain ⟨hp1, hp2⟩ := hp
    have hA : t.isPrefixOf (c :: (p' ++ v)) = false := by
      cases hpre : t.isPrefixOf (c :: (p' ++ v))
      · rfl
      · exfalso
        have hext := isPrefixOf_append_extend t (c :: p') v
          (by simpa using hpre) hp1
        obtain ⟨t₂, ht₂, heq, hpv⟩ := hext
        cases t₂ with
        | nil => exact ht₂ rfl
        | cons d t₂' =>
          cases v with
          | nil => simp [List.isPrefixOf] at hpv
          | cons e v' =>
            simp only [List.isPrefixOf, Bool.and_eq_true, beq_iff_eq] at hpv
            refine hhead e rfl ?_
            rw [heq, ← hpv.1]
            exact List.mem_append_right _ (List.mem_cons_self d t₂')
    have hB : hasSubstr t (p' ++ v) = false := ih v hp2 hv hhead
    show (t.isPrefixOf (c :: (p' ++ v)) || hasSubstr t (p' ++ v)) = false
    rw [hA, hB]
    rfl

/-- The maximal token-free pieces of `s` between the leftmost
non-overlapping occurrences of `t` (the split underlying Python
`str.replace`).  Used only inside proofs. -/
def splitTok {α : Type} [DecidableEq α] (t : List α) : List α → List (List α)
  | [] => [[]]
  | c :: cs =>
    if t ≠ [] ∧ t.isPrefixOf (c :: cs) then
      [] :: splitTok t ((c :: cs).drop t.length)
    else
      match splitTok t cs with
      | [] => [[c]]
      | l :: ls => (c :: l) :: ls
termination_by s => s.length
decreasing_by
  · simp only [List.length_drop, List.length_cons]
    have ht : 0 < t.length := List.length_pos.mpr (by tauto)
    omega
  · simp

/-- Join pieces back with separator `r` (Python `r.join(pieces)` — the
identity `s.replace(t, r) == r.join(s.split(t))`). -/
def joinSep {α : Type} (r : List α) : List (List α) → List α
  | [] => []
  | [p] => p
  | p :: q :: ps => p ++ r ++ joinSep r (q :: ps)

/-- Soundness of the split: it is never empty, its head piece is a prefix
of the input, every piece is token-free, and joining with `r` recovers
`replaceAll`. -/
theorem splitTok_sound {α : Type} [DecidableEq α] (t r : List α) (ht : t ≠ []) :
    ∀ (n : Nat) (s : List α), s.length ≤ n →
      splitTok t s ≠ [] ∧
      (∀ p ps, splitTok t s = p :: ps → p <+: s) ∧
      (∀ p, p ∈ splitTok t s → hasSubstr t p = false) ∧
      joinSep r (splitTok t s) = replaceAll t r s := by
  intro n
  induction n with
  | zero =>
    intro s hs
    have hnil : s = [] := List.eq_nil_of_length_eq_zero (by omega)
    subst hnil
    refine ⟨by simp [splitTok], ?_, ?_, by simp [splitTok, joinSep, replaceAll_nil]⟩
    · intro p ps hp
      simp [splitTok] at hp
      simp [hp.1]
    · intro p hp
      simp [splitTok] at hp
      rw [hp]
      exact hasSubstr_nil t ht
  | succ n ih =>
    intro s hs
    cases s with
    | nil =>
      refine ⟨by simp [splitTok], ?_, ?_, by simp [splitTok, joinSep, replaceAll_nil]⟩
      · intro p ps hp
        simp [splitTok] at hp
        simp [hp.1]
      · intro p hp
        simp [splitTok] at hp
        rw [hp]
        exact hasSubstr_nil t ht
    | cons c cs =>
      simp only [List.length_cons] at hs
      by_cases hcond : (t ≠ [] ∧ t.isPrefixOf (c :: cs) = true)
      · -- a token occurrence starts here
        have ht1 : 1 ≤ t.length := List.length_pos.mpr ht
        have hd : ((c :: cs).drop t.length).length ≤ n := by
          simp only [List.length_drop, List.length_cons]
          omega
        obtain ⟨ihne, ihpfx, ihfree, ihjoin⟩ := ih ((c :: cs).drop t.length) hd
        have hsplit : splitTok t (c :: cs) = [] :: splitTok t ((c :: cs).drop t.length) := by
          rw [splitTok, if_pos hcond]
        refine ⟨by rw [hsplit]; simp, ?_, ?_, ?_⟩
        · intro p ps hp
          rw [hsplit] at hp
          have : p = [] := (List.cons.injEq _ _ _ _).mp hp |>.1.symm
          simp [this]
        · intro p hp
          rw [hsplit] at hp
          rcases List.mem_cons.mp hp with h0 | hmem
          · rw [h0]
            exact hasSubstr_nil t ht
          · exact ihfree p hmem
        · rw [hsplit]
          obtain ⟨p₀, ps₀, hps⟩ : ∃ p₀ ps₀,
              splitTok t ((c :: cs).drop t.length) = p₀ :: ps₀ := by
            cases hsp : splitTok t ((c :: cs).drop t.length) with
            | nil => exact absurd hsp ihne
            | cons a as => exact ⟨a, as, rfl⟩
          rw [hps, joinSep, replaceAll_cons, if_pos hcond, ← hps, ihjoin]
          simp
      · -- no occurrence here: the head piece grows
        have hcs : cs.length ≤ n := by omega
        obtain ⟨ihne, ihpfx, ihfree, ihjoin⟩ := ih cs hcs
        obtain ⟨p₀, ps₀, hps⟩ : ∃ p₀ ps₀, splitTok t cs = p₀ :: ps₀ := by
          cases hsp : splitTok t cs with
          | nil => exact absurd hsp ihne
          | cons a as => exact ⟨a, as, rfl⟩
        have hpfx0 : t.isPrefixOf (c :: cs) = false := by
          cases hpp : t.isPrefixOf (c :: cs)
          · rfl
          · exact absurd ⟨ht, hpp⟩ hcond
        have hsplit : splitTok t (c :: cs) = (c :: p₀) :: ps₀ := by
          rw [splitTok, if_neg hcond, hps]
        refine ⟨by rw [hsplit]; simp, ?_, ?_, ?_⟩
        · intro p ps hp
          rw [hsplit] at hp
          have hpc : p = c :: p₀ := ((List.cons.injEq _ _ _ _).mp hp).1.symm
          rw [hpc]
          exact (List.cons_prefix_cons).mpr ⟨rfl, ihpfx p₀ ps₀ hps⟩
        · intro p hp
          rw [hsplit] at hp
          rcases List.mem_cons.mp hp with h0 | hmem
          · rw [h0]
            show (t.isPrefixOf (c :: p₀) || hasSubstr t p₀) = false
            have hfree0 : hasSubstr t p₀ = false :=
              ihfree p₀ (by rw [hps]; exact List.mem_cons_self _ _)
            have hnp : t.isPrefixOf (c :: p₀) = false := by
              cases hpp : t.isPrefixOf (c :: p₀)
              · rfl
              · exfalso
                have h1 : t <+: c :: p₀ := (isPrefixOfIff t _).mp hpp
                have h2 : (c :: p₀) <+: (c :: cs) :=
                  (List.cons_prefix_cons).mpr ⟨rfl, ihpfx p₀ ps₀ hps⟩
                have h3 : t.isPrefixOf (c :: cs) = true :=
                  (isPrefixOfIff t _).mpr (h1.trans h2)
                rw [h3] at hpfx0
                exact Bool.noConfusion hpfx0
            rw [hnp, hfree0]
            rfl
          · exact ihfree p (by rw [hps]; exact List.mem_cons_of_mem _ hmem)
        · rw [hsplit, replaceAll_cons, if_neg hcond, ← ihjoin, hps]
          cases ps₀ with
          | nil => simp [joinSep]
          | cons q qs => simp [joinSep]

/-- Joining token-free pieces with a nonempty separator sharing no element
with the token yields a token-free list. -/
theorem joinSep_no_token {α : Type} [DecidableEq α] (t r : List α) (ht : t ≠ [])
    (hr : r ≠ []) (hd : ∀ c ∈ r, c ∉ t) :
    ∀ ps : List (List α), (∀ p ∈ ps, hasSubstr t p = false) →
      hasSubstr t (joinSep r ps) = false := by
  intro ps
  induction ps with
  | nil =>
    intro _
    simpa [joinSep] using hasSubstr_nil t ht
  | cons p ps ih =>
    intro hps
    cases ps with
    | nil => simpa [joinSep] using hps p (List.mem_cons_self _ _)
    | cons q qs =>
      rw [joinSep]
      have hrest : hasSubstr t (joinSep r (q :: qs)) = false :=
        ih (fun x hx => hps x (List.mem_cons_of_mem _ hx))
      have hrv : hasSubstr t (r ++ joinSep r (q :: qs)) = false := by
        cases hx : hasSubstr t (r ++ joinSep r (q :: qs))
        · rfl
        · exfalso
          have := hasSubstr_append_right_of_disjoint t (joinSep r (q :: qs)) ht r hd hx
          rw [this] at hrest
          exact Bool.noConfusion hrest
      have hhead : ∀ h0, (r ++ joinSep r (q :: qs)).head? = some h0 → h0 ∉ t := by
        intro h0 hh
        cases r with
        | nil => exact absurd rfl hr
        | cons d r' =>
          simp only [List.cons_append, List.head?_cons, Option.some.injEq] at hh
          rw [← hh]
          exact hd d (List.mem_cons_self _ _)
      rw [List.append_assoc]
      exact hasSubstr_append_block t ht p (r ++ joinSep r (q :: qs))
        (hps p (List.mem_cons_self _ _)) hrv hhead

/-- Replacing every occurrence of a nonempty token `t` by a nonempty
replacement `r` sharing no element with `t` leaves no occurrence of
`t`. -/
theorem replaceAll_no_token {α : Type} [DecidableEq α] (t r s : List α)
    (ht : t ≠ []) (hr : r ≠ []) (hd : ∀ c ∈ r, c ∉ t) :
    hasSubstr t (replaceAll t r s) = false := by
  obtain ⟨hne, hpfx, hfree, hjoin⟩ := splitTok_sound t r ht s.length s (le_refl _)
  rw [← hjoin]
  exact joinSep_no_token t r ht hr hd _ hfree

/-- A nonempty string has a nonempty character list. -/
theorem toList_ne_nil (s : String) (h : ¬ s = "") : s.toList ≠ [] := by
  cases s with
  | mk data =>
    intro hl
    apply h
    have hd : data = [] := hl
    rw [hd]

/-- The string form of `replaceAll_no_token`, about Python
`s.replace(t, r)` and `t in ·`. -/
theorem pyReplace_no_token (s t r : String) (ht : ¬ t = "") (hr : ¬ r = "")
    (hd : ∀ c ∈ r.toList, c ∉ t.toList) :
    pyContains t (pyReplace s t r) = false :=
  replaceAll_no_token t.toList r.toList s.toList
    (toList_ne_nil t ht) (toList_ne_nil r hr) hd

/-- String append acts as list append on the underlying data. -/
theorem strAppend_data (a b : String) : (a ++ b).data = a.data ++ b.data := by
  cases a
  cases b
  rfl

/-- A concatenation with a nonempty left part is nonempty. -/
theorem append_ne_empty_left (a b : String) (ha : ¬ a = "") : ¬ (a ++ b) = "" := by
  intro h
  apply ha
  have hdata := congrArg String.data h
  rw [strAppend_data] at hdata
  have hnil : a.data ++ b.data = [] := by
    rw [hdata]
  have ha' : a.data = [] := (List.append_eq_nil.mp hnil).1
  cases a with
  | mk da =>
    have : da = [] := ha'
    rw [this]

/-- A concatenation with a nonempty right part is nonempty. -/
theorem append_ne_empty_right (a b : String) (hb : ¬ b = "") : ¬ (a ++ b) = "" := by
  intro h
  apply hb
  have hdata := congrArg String.data h
  rw [strAppend_data] at hdata
  have hnil : a.data ++ b.data = [] := by
    rw [hdata]
  have hb' : b.data = [] := (List.append_eq_nil.mp hnil).2
  cases b with
  | mk db =>
    have : db = [] := hb'
    rw [this]

/-- A join whose first part is nonempty is nonempty. -/
theorem pyJoin_ne_empty (sep x : String) (xs : List String) (hx : ¬ x = "") :
    ¬ pyJoin sep (x :: xs) = "" := by
  cases xs with
  | nil => simpa [pyJoin] using hx
  | cons y ys =>
    exact append_ne_empty_left _ _ (append_ne_empty_left _ _ hx)

/-- The formatted emergency-contact string is never empty: every branch
emits either a labelled number list or the fixed international
fallback. -/
theorem format_emergency_numbers_ne_empty (info : List (String × Json)) :
    ¬ EmergencyNumberService.format_emergency_numbers info = "" := by
  unfold EmergencyNumberService.format_emergency_numbers
  by_cases hm : ((dictLookup info "medical").getD Json.null).truthy = true
  · by_cases hp : ((dictLookup info "police").getD Json.null).truthy = true
    · by_cases hh : (((dictLookup info "suicide_hotline").getD (Json.str "")).truthy &&
          (match (dictLookup info "suicide_hotline").getD (Json.str "") with
           | .str s => decide (s ≠ "not available")
           | _ => true)) = true
      · simp only [hm, hp, hh, if_true, List.nil_append]
        simp only [List.isEmpty, if_false]
        exact pyJoin_ne_empty _ _ _ (append_ne_empty_right _ _ (by decide))
      · simp only [hm, hp, hh, if_true, Bool.false_eq_true, if_false, List.nil_append]
        simp only [List.isEmpty, if_false]
        exact pyJoin_ne_empty _ _ _ (append_ne_empty_right _ _ (by decide))
    · by_cases hh : (((dictLookup info "suicide_hotline").getD (Json.str "")).truthy &&
          (match (dictLookup info "suicide_hotline").getD (Json.str "") with
           | .str s => decide (s ≠ "not available")
           | _ => true)) = true
      · simp only [hm, hp, hh, if_true, Bool.false_eq_true, if_false, List.nil_append]
        simp only [List.isEmpty, if_false]
        exact pyJoin_ne_empty _ _ _ (append_ne_empty_right _ _ (by decide))
      · simp only [hm, hp, hh, if_true, Bool.false_eq_true, if_false, List.nil_append]
        simp only [List.isEmpty, if_false]
        exact pyJoin_ne_empty _ _ _ (append_ne_empty_right _ _ (by decide))
  · by_cases hp : ((dictLookup info "police").getD Json.null).truthy = true
    · by_cases hh : (((dictLookup info "suicide_hotline").getD (Json.str "")).truthy &&
          (match (dictLookup info "suicide_hotline").getD (Json.str "") with
           | .str s => decide (s ≠ "not available")
           | _ => true)) = true
      · simp only [hm, hp, hh, if_true, Bool.false_eq_true, if_false, List.nil_append]
        simp only [List.isEmpty, if_false]
        exact pyJoin_ne_empty _ _ _ (append_ne_empty_right _ _ (by decide))
      · simp only [hm, hp, hh, if_true, Bool.false_eq_true, if_false, List.nil_append]
        simp only [List.isEmpty, if_false]
        exact pyJoin_ne_empty _ _ _ (append_ne_empty_right _ _ (by decide))
    · by_cases hh : (((dictLookup info "suicide_hotline").getD (Json.str "")).truthy &&
          (match (dictLookup info "suicide_hotline").getD (Json.str "") with
           | .str s => decide (s ≠ "not available")
           | _ => true)) = true
      · simp only [hm, hp, hh, if_true, Bool.false_eq_true, if_false, List.nil_append]
        simp only [List.isEmpty, if_false]
        exact pyJoin_ne_empty _ _ _ (append_ne_empty_right _ _ (by decide))
      · simp only [hm, hp, hh, Bool.false_eq_true, if_false]
        decide

/-- The draft arguments of the refiner calls in a trace. -/
def refineDrafts : List Event → List String
  | [] => []
  | Event.refineCall _ _ d _ :: es => d :: refineDrafts es
  | _ :: es => refineDrafts es

/-- C7 (amended): on an emergency turn whose draft contains the reserved
token, the refiner's input is exactly the draft with every occurrence of
`[EMERGENCY_NUMBER]` replaced by the formatted contact string (Python
`str.replace` semantics), and no occurrence of the token remains whenever
the contact string shares no character with the token — as any normally
formatted number string, e.g. `"108 (ambulance) or 100 (police)"`, does.
(A contact string that itself contains the token re-creates it; see the
counterexample.) -/
theorem chat_placeholder_substitution (st : ServerState) (msg sid : String)
    (o : ChatOracles) (hmsg : ¬ pyStripWs msg = "")
    (hblock : (PreCheckCounter.analyze o.preCheckOutcome).block_response.truthy = false)
    (hem : (EmergencyDetector.detect o.detectOutcome).1 = true)
    (htok : pyContains "[EMERGENCY_NUMBER]"
      (SouleneAI.generate_response (pyStripWs msg)
        ((st.conversation_history.add_message sid "user" (pyStripWs msg)
          o.now).get_history sid) o.generateOutcome) = true) :
    refineDrafts (chat st msg sid o).2.2 =
      [pyReplace
        (SouleneAI.generate_response (pyStripWs msg)
          ((st.conversation_history.add_message sid "user" (pyStripWs msg)
            o.now).get_history sid) o.generateOutcome)
        "[EMERGENCY_NUMBER]"
        (resolveEmergencyNumber st
          (st.conversation_history.add_message sid "user" (pyStripWs msg) o.now)
          sid o.lookupOutcome).1] ∧
    ((∀ c ∈ (resolveEmergencyNumber st
        (st.conversation_history.add_message sid "user" (pyStripWs msg) o.now)
        sid o.lookupOutcome).1.toList, c ∉ "[EMERGENCY_NUMBER]".toList) →
      pyContains "[EMERGENCY_NUMBER]"
        (pyReplace
          (SouleneAI.generate_response (pyStripWs msg)
            ((st.conversation_history.add_message sid "user" (pyStripWs msg)
              o.now).get_history sid) o.generateOutcome)
          "[EMERGENCY_NUMBER]"
          (resolveEmergencyNumber st
            (st.conversation_history.add_message sid "user" (pyStripWs msg) o.now)
            sid o.lookupOutcome).1) = false) := by
  have hnum : ¬ (resolveEmergencyNumber st
      (st.conversation_history.add_message sid "user" (pyStripWs msg) o.now)
      sid o.lookupOutcome).1 = "" := format_emergency_numbers_ne_empty _
  have hopt : optStrTruthy (some (resolveEmergencyNumber st
      (st.conversation_history.add_message sid "user" (pyStripWs msg) o.now)
      sid o.lookupOutcome).1) = true := by
    simp [optStrTruthy, hnum]
  constructor
  · simp only [chat, if_neg hmsg, hblock, Bool.false_eq_true, if_false, hem, if_true,
      eq_self_iff_true, hopt, htok, and_self, refineDrafts, Option.getD_some]
  · intro hdisj
    exact pyReplace_no_token _ _ _ (by decide) hnum hdisj

/-- Counterexample to C7 as stated: when the emergency lookup yields a
contact record whose `medical` field is itself the reserved token, the
formatted contact string is `"[EMERGENCY_NUMBER] (ambulance)"`, and after
`str.replace` the refiner's input still contains an occurrence of
`[EMERGENCY_NUMBER]` — the substitution happened, but the claim's
"leaving no occurrence of the token in the refiner's input" is false. -/
theorem chat_placeholder_substitution_counterexample :
    refineDrafts (chat initialServerState "please help" "s"
        ⟨none,
         some (.obj [("is_emergency", .bool true), ("emergency_type", .str "suicide"),
           ("confidence", .str "high")]),
         some (.obj [("medical", .str "[EMERGENCY_NUMBER]")]),
         some "Call [EMERGENCY_NUMBER] now.", some "ok", "t"⟩).2.2 =
      ["Call [EMERGENCY_NUMBER] (ambulance) now."] ∧
    pyContains "[EMERGENCY_NUMBER]" "Call [EMERGENCY_NUMBER] (ambulance) now." = true :=
  ⟨rfl, by decide⟩

/-- Witness for C7's amended theorem: the spec's example contact string
`"108 (ambulance) or 100 (police)"` shares no character with the token, so
after substitution no occurrence remains. -/
theorem chat_placeholder_substitution_witness :
    refineDrafts (chat initialServerState "please help" "s"
        ⟨none,
         some (.obj [("is_emergency", .bool true), ("emergency_type", .str "suicide"),
           ("confidence", .str "high")]),
         some (.obj [("medical", .str "108"), ("police", .str "100")]),
         some "Call [EMERGENCY_NUMBER] now.", some "ok", "t"⟩).2.2 =
      [pyReplace
        (SouleneAI.generate_response (pyStripWs "please help")
          ((initialServerState.conversation_history.add_message "s" "user"
            (pyStripWs "please help") "t").get_history "s")
          (some "Call [EMERGENCY_NUMBER] now."))
        "[EMERGENCY_NUMBER]"
        (resolveEmergencyNumber initialServerState
          (initialServerState.conversation_history.add_message "s" "user"
            (pyStripWs "please help") "t")
          "s" (some (.obj [("medical", .str "108"), ("police", .str "100")]))).1] ∧
    ((∀ c ∈ (resolveEmergencyNumber initialServerState
        (initialServerState.conversation_history.add_message "s" "user"
          (pyStripWs "please help") "t")
        "s" (some (.obj [("medical", .str "108"), ("police", .str "100")]))).1.toList,
        c ∉ "[EMERGENCY_NUMBER]".toList) →
      pyContains "[EMERGENCY_NUMBER]"
        (pyReplace
          (SouleneAI.generate_response (pyStripWs "please help")
            ((initialServerState.conversation_history.add_message "s" "user"
              (pyStripWs "please help") "t").get_history "s")
            (some "Call [EMERGENCY_NUMBER] now."))
          "[EMERGENCY_NUMBER]"
          (resolveEmergencyNumber initialServerState
            (initialServerState.conversation_history.add_message "s" "user"
              (pyStripWs "please help") "t")
            "s" (some (.obj [("medical", .str "108"), ("police", .str "100")]))).1)
        = false) :=
  chat_placeholder_substitution initialServerState "please help" "s"
    ⟨none,
     some (.obj [("is_emergency", .bool true), ("emergency_type", .str "suicide"),
       ("confidence", .str "high")]),
     some (.obj [("medical", .str "108"), ("police", .str "100")]),
     some "Call [EMERGENCY_NUMBER] now.", some "ok", "t"⟩
    (by decide) rfl rfl rfl
